import Mathlib

/-!
Verification development for the Sandboxed-C repository: a Node.js backend
that compiles and runs untrusted C code inside Docker containers, in a batch
mode (HTTP `/api/run`) and an interactive mode (WebSocket + pty).

The definitions below are a shallow embedding of the backend source files:
* `backend/index.js` (history snapshot `index_20250923211629.js`) — the
  marker-parsing batch server, called "V1" here;
* the `execFile`-based batch server embedded in
  `interactiveServer_20250923230807.js` — called "V2" here;
* the interactive WebSocket server with `stripAnsiSequences`
  (`src/unnamed/part_002`).

Filesystem and Docker effects are modelled by explicit oracles (`RunEnv`)
describing what the `child_process` callbacks deliver, and by boolean trace
fields recording which effects the handler performed.
-/

namespace SandboxedC

/-- A JavaScript value, as far as the handlers inspect one: the request's
`code` field can be a string or any non-string value. -/
inductive JsVal where
  | str (s : String)
  | num (n : Int)
  | boolean (b : Bool)
  | nullV
  | undefinedV
deriving Repr, DecidableEq

/-- `typeof v === 'string'`. -/
def JsVal.isString : JsVal → Bool
  | .str _ => true
  | _ => false

/-- The `Error` object a `child_process` `exec`/`execFile` callback receives:
`killed` is set when node's own timeout killed the child, `code` is the exit
code (JS `null`, modelled `none`, when the child died from a signal). -/
structure JsExecError where
  killed : Bool
  code : Option Int
deriving Repr, DecidableEq

/-- What one `exec`/`execFile` invocation delivers to its callback:
`error` is `none` on a zero exit, and the captured stdout/stderr text. -/
structure ExecCbResult where
  error : Option JsExecError
  stdout : String
  stderr : String
deriving Repr, DecidableEq

/-- JS `x || d` for `x` a number-or-null-or-undefined (`none`): `0`, `null`
and `undefined` are falsy, any other number passes through. -/
def jsOrNum (v : Option Int) (d : Int) : Int :=
  match v with
  | some c => if c = 0 then d else c
  | none => d

/-- The whitespace characters JS `parseInt` skips (the common ones). -/
def jsWhitespace (c : Char) : Bool :=
  c = ' ' || c = '\t' || c = '\n' || c = '\r' ||
  c = '\x0b' || c = '\x0c' || c = ' ' || c = '﻿'

/-- Value of a list of decimal digits, most significant first. -/
def decimalVal (ds : List Char) : Nat :=
  ds.foldl (fun acc c => acc * 10 + (c.toNat - '0'.toNat)) 0

/-- Value of a list of hexadecimal digits, most significant first. -/
def hexDigitVal (c : Char) : Nat :=
  if c.isDigit then c.toNat - '0'.toNat
  else if 'a' ≤ c ∧ c ≤ 'f' then c.toNat - 'a'.toNat + 10
  else c.toNat - 'A'.toNat + 10

def isHexDigit (c : Char) : Bool :=
  c.isDigit || ('a' ≤ c && c ≤ 'f') || ('A' ≤ c && c ≤ 'F')

def hexVal (ds : List Char) : Nat :=
  ds.foldl (fun acc c => acc * 16 + hexDigitVal c) 0

/-- JS `parseInt(s)` with no radix argument: skip leading whitespace, an
optional sign, an optional `0x`/`0X` hex prefix, then the longest digit
prefix; `none` models `NaN`. -/
def jsParseInt (s : String) : Option Int :=
  let l := s.data.dropWhile jsWhitespace
  let (sign, l₁) : Int × List Char :=
    match l with
    | '-' :: r => (-1, r)
    | '+' :: r => (1, r)
    | _ => (1, l)
  match l₁ with
  | '0' :: x :: r =>
    if x = 'x' ∨ x = 'X' then
      let ds := r.takeWhile isHexDigit
      if ds = [] then none else some (sign * (hexVal ds : Int))
    else
      let ds := ('0' :: x :: r).takeWhile Char.isDigit
      some (sign * (decimalVal ds : Int))
  | _ =>
    let ds := l₁.takeWhile Char.isDigit
    if ds = [] then none else some (sign * (decimalVal ds : Int))

/-- Worker for `jsSplit`: scan left to right, starting a new segment after
each non-overlapping leftmost occurrence of `sep`.  The fuel argument (set
to more than the input length) only makes the recursion structural; it
never runs out because each step consumes at least one character. -/
def splitFuel (sep : List Char) : Nat → List Char → List Char → List (List Char)
  | 0, cur, _ => [cur.reverse]
  | _ + 1, cur, [] => [cur.reverse]
  | fuel + 1, cur, c :: cs =>
    if sep.isPrefixOf (c :: cs) then
      cur.reverse :: splitFuel sep fuel [] ((c :: cs).drop sep.length)
    else
      splitFuel sep fuel (c :: cur) cs

/-- JS `s.split(sep)` for a string separator: leftmost non-overlapping
occurrences delimit the segments; an empty separator splits into single
characters. -/
def jsSplit (s : String) (sep : String) : List String :=
  if sep.data.isEmpty then s.data.map (fun c => ⟨[c]⟩)
  else (splitFuel sep.data (s.data.length + 1) [] s.data).map (fun l => ⟨l⟩)

/-- Worker for `jsJoin`. -/
def joinList (sep : List Char) : List (List Char) → List Char
  | [] => []
  | [x] => x
  | x :: y :: rest => x ++ sep ++ joinList sep (y :: rest)

/-- JS `parts.join(sep)`. -/
def jsJoin (parts : List String) (sep : String) : String :=
  ⟨joinList sep.data (parts.map String.data)⟩

/-- JS `s.startsWith(pre)`. -/
def jsStartsWith (s : String) (pre : String) : Bool :=
  pre.data.isPrefixOf s.data

/-- The characters JS `String.prototype.trim` strips (whitespace and line
terminators). -/
def jsTrimChar (c : Char) : Bool :=
  jsWhitespace c || c.toNat = 0x2028 || c.toNat = 0x2029

/-- JS `s.trim()`. -/
def jsTrim (s : String) : String :=
  ⟨((s.data.dropWhile jsTrimChar).reverse.dropWhile jsTrimChar).reverse⟩

/-- Clamp a JS array index as `Array.prototype.slice` does: negative
indices count from the end, everything is clamped to `[0, len]`. -/
def jsSliceIdx (len : Nat) (i : Int) : Nat :=
  if i < 0 then (max ((len : Int) + i) 0).toNat else min i.toNat len

/-- JS `l.slice(a, b)`. -/
def jsSlice2 {α : Type} (l : List α) (a b : Int) : List α :=
  (l.take (jsSliceIdx l.length b)).drop (jsSliceIdx l.length a)

/-- JS `l.slice(a)`. -/
def jsSlice1 {α : Type} (l : List α) (a : Int) : List α :=
  jsSlice2 l a (l.length : Int)

/-! ## V1 batch server: `index_20250923211629.js` -/

/-- The separator `index.js` passes to `split` and `join`: the source text is
`'\\n'`, which in JavaScript is the two-character string backslash–`n`,
not a newline. -/
def bsn : String := "\\n"

/-- Result of the marker-scanning loop of V1 `executeCode`: the last line
starting with `EXIT_CODE:`, and the JS indices just after the last
`---STDOUT---` / `---STDERR---` marker lines (`-1` when absent). -/
structure MarkerScan where
  exitCodeLine : String
  stdoutStartIndex : Int
  stderrStartIndex : Int
deriving Repr, DecidableEq

/-- The `for` loop of V1 `executeCode` over `lines` (later matches
overwrite earlier ones, mirroring the repeated assignments). -/
def scanMarkers (lines : List String) : MarkerScan :=
  lines.enum.foldl
    (fun acc p =>
      if jsStartsWith p.2 "EXIT_CODE:" then { acc with exitCodeLine := p.2 }
      else if p.2 = "---STDOUT---" then
        { acc with stdoutStartIndex := (p.1 : Int) + 1 }
      else if p.2 = "---STDERR---" then
        { acc with stderrStartIndex := (p.1 : Int) + 1 }
      else acc)
    ⟨"", -1, -1⟩

/-- The `exitCode` local of V1 `executeCode`:
`exitCodeLine ? parseInt(exitCodeLine.split(':')[1]) : (error ? error.code || 1 : 0)`.
`none` models `NaN`. -/
def execExitCodeV1 (cb : ExecCbResult) : Option Int :=
  let lines := jsSplit cb.stdout bsn
  let ms := scanMarkers lines
  if ms.exitCodeLine ≠ "" then
    match (jsSplit ms.exitCodeLine ":").get? 1 with
    | some t => jsParseInt t
    | none => none
  else
    match cb.error with
    | some e => some (jsOrNum e.code 1)
    | none => some 0

/-- The outcome `executeCode` resolves with. `exitCode` is `Option Int`
because V1 can produce `NaN` from a malformed marker line. -/
structure ExecOutcome where
  stdout : String
  stderr : String
  exitCode : Option Int
  timedOut : Bool
deriving Repr, DecidableEq

/-- V1 `executeCode` (lines 161–241 of `index_20250923211629.js`): runs the
container and parses the single captured stdout blob by splitting on `bsn`
and hunting for `EXIT_CODE:` / `---STDOUT---` / `---STDERR---` markers.
`cb` is what the `exec` callback receives from the docker invocation. -/
def executeCodeV1 (cb : ExecCbResult) : ExecOutcome :=
  let lines := jsSplit cb.stdout bsn
  let ms := scanMarkers lines
  let exitCode := execExitCodeV1 cb
  let timedOut : Bool := exitCode == some 124
  let programStdout :=
    if ms.stdoutStartIndex ≠ -1 ∧ ms.stderrStartIndex ≠ -1 then
      jsJoin (jsSlice2 lines ms.stdoutStartIndex (ms.stderrStartIndex - 1)) bsn
    else ""
  let programStderr :=
    if ms.stderrStartIndex ≠ -1 then
      jsJoin (jsSlice1 lines ms.stderrStartIndex) bsn
    else ""
  { stdout := programStdout
    stderr := programStderr
    exitCode := if timedOut then some 124 else exitCode
    timedOut := timedOut }

/-- What `compileCode` resolves with. -/
structure CompileResult where
  error : Bool
  stdout : String
  stderr : String
  exitCode : Int
deriving Repr, DecidableEq

/-- V1 `compileCode` (lines 124–158): on a callback error resolves
`{error: true, stdout, stderr, exitCode: error.code || 1}`, otherwise
`{error: false, stdout, stderr, exitCode: 0}`. -/
def compileCodeV1 (cb : ExecCbResult) : CompileResult :=
  match cb.error with
  | some e =>
    { error := true, stdout := cb.stdout, stderr := cb.stderr
      exitCode := jsOrNum e.code 1 }
  | none =>
    { error := false, stdout := cb.stdout, stderr := cb.stderr
      exitCode := 0 }

/-- V2 `compileCode` (`interactiveServer` snapshot, lines 191–216):
`{error: !!error, stdout: stdout.trim(), stderr: stderr.trim(),
exitCode: error?.code || 0}`. -/
def compileCodeV2 (cb : ExecCbResult) : CompileResult :=
  { error := cb.error.isSome
    stdout := jsTrim cb.stdout
    stderr := jsTrim cb.stderr
    exitCode := jsOrNum (cb.error.bind JsExecError.code) 0 }

/-- V2 `executeCode` (lines 219–252): `execFile` with a 3000 ms node-side
timeout; `timedOut = error?.killed || false`, `exitCode = error?.code || 0`,
and stdout/stderr are the two separately captured streams, trimmed. -/
def executeCodeV2 (cb : ExecCbResult) : ExecOutcome :=
  let timedOut : Bool :=
    match cb.error with
    | some e => e.killed
    | none => false
  let exitCode := jsOrNum (cb.error.bind JsExecError.code) 0
  { stdout := jsTrim cb.stdout
    stderr := jsTrim cb.stderr
    exitCode := some exitCode
    timedOut := timedOut }

/-! ## The `/api/run` request handler -/

/-- The JSON body both batch servers respond with, plus the HTTP status. -/
structure Response where
  status : Nat
  stdout : String
  stderr : String
  compileError : String
  exitCode : Option Int
  timedOut : Bool
deriving Repr, DecidableEq

/-- Effects one request performed, and the workspace directory's final
state (`fs.rmSync` in `cleanupWorkspace` is modelled as succeeding). -/
structure RunTrace where
  workspaceCreated : Bool
  executeInvoked : Bool
  cleanupCalled : Bool
  dirExistsAfter : Bool
deriving Repr, DecidableEq

/-- Oracle for one request's interactions with the outside world: whether
`fs.mkdir` and the `fs.writeFile`s succeed (with the error messages thrown
otherwise), and what the docker compile / run callbacks deliver. -/
structure RunEnv where
  mkdirOk : Bool
  writeOk : Bool
  mkdirErr : String
  writeErr : String
  compileCb : ExecCbResult
  execCb : ExecCbResult
deriving Repr, DecidableEq

def invalidCodeResponse : Response :=
  { status := 400, stdout := "", stderr := "Invalid code provided"
    compileError := "", exitCode := some (-1), timedOut := false }

def tooLargeResponse : Response :=
  { status := 400, stdout := "", stderr := "Code too large (max 1MB)"
    compileError := "", exitCode := some (-1), timedOut := false }

def internalErrorResponse (msg : String) : Response :=
  { status := 500, stdout := ""
    stderr := "Internal server error: " ++ msg
    compileError := "", exitCode := some (-1), timedOut := false }

/-- The `try { … } catch { … } finally { cleanupWorkspace(…) }` body of the
V1 handler, parametrised by which `compileCode` / `executeCode` is in use
(V1 and V2 share this structure verbatim). `createWorkspace` first runs
`fs.mkdir` (failure: nothing created), then the `writeFile`s (failure: the
directory exists until cleanup). -/
def runBody (compile : ExecCbResult → CompileResult)
    (execute : ExecCbResult → ExecOutcome) (env : RunEnv) :
    Response × RunTrace :=
  if ¬ env.mkdirOk then
    -- createWorkspace rejects at mkdir; catch responds 500, finally cleans up
    (internalErrorResponse env.mkdirErr,
      { workspaceCreated := false, executeInvoked := false
        cleanupCalled := true, dirExistsAfter := false })
  else if ¬ env.writeOk then
    -- mkdir succeeded, a writeFile rejected; catch responds 500
    (internalErrorResponse env.writeErr,
      { workspaceCreated := true, executeInvoked := false
        cleanupCalled := true, dirExistsAfter := false })
  else
    let cr := compile env.compileCb
    if cr.error then
      ({ status := 200, stdout := "", stderr := ""
         compileError := cr.stderr, exitCode := some cr.exitCode
         timedOut := false },
       { workspaceCreated := true, executeInvoked := false
         cleanupCalled := true, dirExistsAfter := false })
    else
      let er := execute env.execCb
      ({ status := 200, stdout := er.stdout, stderr := er.stderr
         compileError := "", exitCode := er.exitCode
         timedOut := er.timedOut },
       { workspaceCreated := true, executeInvoked := true
         cleanupCalled := true, dirExistsAfter := false })

/-- The shared `/api/run` handler shape: validation (`!code || typeof code
!== 'string'`, then the 1 MB ceiling `code.length > 1024 * 1024`) before any
workspace is allocated, then the try/catch/finally body. -/
def handleRun (compile : ExecCbResult → CompileResult)
    (execute : ExecCbResult → ExecOutcome)
    (code : JsVal) (env : RunEnv) : Response × RunTrace :=
  match code with
  | .str s =>
    if s = "" then
      -- !code: the empty string is falsy
      (invalidCodeResponse,
        { workspaceCreated := false, executeInvoked := false
          cleanupCalled := false, dirExistsAfter := false })
    else if s.length > 1024 * 1024 then
      (tooLargeResponse,
        { workspaceCreated := false, executeInvoked := false
          cleanupCalled := false, dirExistsAfter := false })
    else
      runBody compile execute env
  | _ =>
    -- typeof code !== 'string'
    (invalidCodeResponse,
      { workspaceCreated := false, executeInvoked := false
        cleanupCalled := false, dirExistsAfter := false })

/-- The V1 batch handler (`index_20250923211629.js`, lines 24–99). -/
def handleRunV1 (code : JsVal) (env : RunEnv) : Response × RunTrace :=
  handleRun compileCodeV1 executeCodeV1 code env

/-- The V2 batch handler (`interactiveServer` snapshot, lines 102–170). -/
def handleRunV2 (code : JsVal) (env : RunEnv) : Response × RunTrace :=
  handleRun compileCodeV2 executeCodeV2 code env

/-! ## `stripAnsiSequences` (src/unnamed/part_002, lines 11–22)

The function chains four global `String.prototype.replace` calls with regex
patterns.  Each pattern is embedded as a deterministic matcher returning the
length of the match at the head of the list (the patterns have no
backtracking choice points: their character classes and terminators are
disjoint).  `replAll` is global leftmost replacement with the empty string.
-/

/-- Global leftmost replace-with-empty: at each position try the matcher; on
a match of length `n+1` drop it and continue after it, otherwise keep the
character and move on (a length-0 match keeps the character, as JS advances
`lastIndex` past an empty match). -/
def replAll (m : List Char → Option Nat) : List Char → List Char
  | [] => []
  | c :: cs =>
    match m (c :: cs) with
    | some (n + 1) => replAll m (cs.drop n)
    | _ => c :: replAll m cs
termination_by l => l.length
decreasing_by
  · simp only [List.length_cons, List.length_drop]
    omega
  · simp only [List.length_cons]
    omega

/-- CSI pattern `\u001B\[[0-?]*[ -\/]*[@-~]`. -/
def csiM (l : List Char) : Option Nat :=
  match l with
  | '\x1b' :: '[' :: rest =>
    let p1 := rest.takeWhile fun c => 0x30 ≤ c.toNat && c.toNat ≤ 0x3f
    let rest2 := rest.drop p1.length
    let p2 := rest2.takeWhile fun c => 0x20 ≤ c.toNat && c.toNat ≤ 0x2f
    let rest3 := rest2.drop p2.length
    match rest3 with
    | f :: _ =>
      if 0x40 ≤ f.toNat ∧ f.toNat ≤ 0x7e then
        some (2 + p1.length + p2.length + 1)
      else none
    | [] => none
  | _ => none

/-- OSC pattern `\u001B\][^\u0007\u001B]*(?:\u0007|\u001B\\)`. -/
def oscM (l : List Char) : Option Nat :=
  match l with
  | '\x1b' :: ']' :: rest =>
    let body := rest.takeWhile fun c => c ≠ '\x07' && c ≠ '\x1b'
    match rest.drop body.length with
    | '\x07' :: _ => some (2 + body.length + 1)
    | '\x1b' :: '\\' :: _ => some (2 + body.length + 2)
    | _ => none
  | _ => none

/-- JS `.` excludes the four line terminators. -/
def isLineTerminator (c : Char) : Bool :=
  c = '\n' || c = '\r' || c = ' ' || c = ' '

/-- Lazy `.*?\u001B\\`: number of characters up to and including the first
`ESC \` terminator, failing on a line terminator or end of input. -/
def lazyToSt : List Char → Option Nat
  | '\x1b' :: '\\' :: _ => some 2
  | c :: cs => if isLineTerminator c then none else (lazyToSt cs).map (· + 1)
  | [] => none

/-- SOS/PM/APC pattern `\u001B[PX^_].*?\u001B\\`. -/
def otherM (l : List Char) : Option Nat :=
  match l with
  | '\x1b' :: k :: rest =>
    if k = 'P' ∨ k = 'X' ∨ k = '^' ∨ k = '_' then
      (lazyToSt rest).map (2 + ·)
    else none
  | _ => none

/-- Bare-BEL pattern `\u0007`. -/
def belM (l : List Char) : Option Nat :=
  match l with
  | c :: _ => if c = '\x07' then some 1 else none
  | [] => none

/-- One global `replace(pattern, '')` on a string. -/
def jsReplace (m : List Char → Option Nat) (s : String) : String :=
  ⟨replAll m s.data⟩

/-- `stripAnsiSequences` on a string input:
`raw.replace(csi, '').replace(osc, '').replace(other, '').replace(bel, '')`. -/
def stripAnsiSequences (s : String) : String :=
  jsReplace belM (jsReplace otherM (jsReplace oscM (jsReplace csiM s)))

/-- `stripAnsiSequences` as written, on any JS value: a non-string input is
returned unchanged (`if (typeof raw !== 'string') return raw`). -/
def stripAnsiSequencesJs : JsVal → JsVal
  | .str s => .str (stripAnsiSequences s)
  | v => v

/-! ## Docker invocations and their resource-cap flags -/

/-- V1 compile command string (lines 126–134), with the interpolated
workspace directory as a parameter. -/
def compileCmdV1 (ws : String) : String :=
  "docker run --rm " ++
  "-v \"" ++ ws ++ ":/workspace\" " ++
  "--workdir /workspace " ++
  "--memory=256m " ++
  "--cpus=0.5 " ++
  "--network=none " ++
  "--user=1000:1000 " ++
  "c-runner:latest " ++
  "gcc -std=c11 -Wall -Wextra -O2 main.c -o main"

/-- V1 execute command string (lines 164–179). -/
def executeCmdV1 (ws : String) : String :=
  "docker run --rm " ++
  "-v \"" ++ ws ++ ":/workspace\" " ++
  "--workdir /workspace " ++
  "--memory=256m " ++
  "--cpus=0.5 " ++
  "--pids-limit=64 " ++
  "--network=none " ++
  "--user=1000:1000 " ++
  "c-runner:latest " ++
  "sh -c 'timeout 3s ./main < input.txt > program.out 2> program.err; " ++
  "TIMEOUT_EXIT=$?; " ++
  "echo \"EXIT_CODE:$TIMEOUT_EXIT\"; " ++
  "echo \"---STDOUT---\"; " ++
  "cat program.out 2>/dev/null || echo \"\"; " ++
  "echo \"---STDERR---\"; " ++
  "cat program.err 2>/dev/null || echo \"\"'"

/-- V2 compile argument list (lines 193–203). -/
def compileCmdV2 (ws : String) : List String :=
  ["docker", "run", "--rm",
   "-v", ws ++ ":/workspace",
   "--workdir", "/workspace",
   "--memory=256m",
   "--cpus=0.5",
   "--network=none",
   "--user=1000:1000",
   "c-runner:latest",
   "gcc", "-std=c11", "-Wall", "-Wextra", "-O2", "main.c", "-o", "main"]

/-- V2 execute argument list (lines 221–232). -/
def executeCmdV2 (ws : String) : List String :=
  ["docker", "run", "--rm",
   "-v", ws ++ ":/workspace",
   "--workdir", "/workspace",
   "--memory=256m",
   "--cpus=0.5",
   "--pids-limit=64",
   "--network=none",
   "--user=1000:1000",
   "c-runner:latest",
   "./main"]

/-- Interactive server compile argument list (part_002, lines 46–52). -/
def compileCmdInteractive (ws : String) : List String :=
  ["docker", "run", "--rm",
   "-v", ws ++ ":/workspace",
   "--workdir", "/workspace",
   "c-runner:latest",
   "gcc", "main.c", "-o", "main"]

/-- Interactive server pty run command (part_002, lines 61–67):
`pty.spawn('docker', args)`. -/
def ptyRunCmdInteractive (ws : String) : List String :=
  "docker" ::
  ["run", "--rm", "-i", "-t",
   "-v", ws ++ ":/workspace",
   "--workdir", "/workspace",
   "c-runner:latest",
   "./main"]

/-- Whether a docker argument is one of the resource-cap flags the spec
enumerates: memory ceiling, CPU share, process-count ceiling, network
isolation, unprivileged user. -/
def isResourceCapFlag (a : String) : Bool :=
  jsStartsWith a "--memory=" || jsStartsWith a "--cpus=" ||
  jsStartsWith a "--pids-limit=" || jsStartsWith a "--network=" ||
  jsStartsWith a "--user="

/-- The resource-cap flags of a docker argument list. -/
def dockerResourceCaps (args : List String) : List String :=
  args.filter isResourceCapFlag

/-- The resource-cap flags of a space-joined docker command string. -/
def resourceCapsOfCmdStr (cmd : String) : List String :=
  dockerResourceCaps (jsSplit cmd " ")

/-! ## Interactive session (src/unnamed/part_002) -/

/-- A message the interactive server sends to the client. -/
inductive OutMsg where
  | stdoutMsg (data : String)
  | compileErrorMsg (data : String)
  | exitMsg
deriving Repr, DecidableEq

/-- State of one WebSocket connection: the workspace directory, whether a
pty-spawned process is live, whether `ws.term` has been set, the messages
sent to the client, and the data written to the pty. -/
structure SessionState where
  dirExists : Bool
  procAlive : Bool
  termAttached : Bool
  outMsgs : List OutMsg
  ptyInput : List String
deriving Repr, DecidableEq

/-- `wss.on('connection')` prologue: `fs.mkdirSync(workspaceDir)`. -/
def sessConnect : SessionState :=
  { dirExists := true, procAlive := false, termAttached := false
    outMsgs := [], ptyInput := [] }

/-- A `code` message: compile in docker; on error send `compileError` and
stop, on success `pty.spawn` the program (`ws.term` set, process live).
`compileError` is the oracle for the compile callback's `stderr` when it
fails (`none` = compile succeeded). -/
def sessMsgCode (compileError : Option String) (s : SessionState) :
    SessionState :=
  match compileError with
  | some stderr => { s with outMsgs := s.outMsgs ++ [.compileErrorMsg stderr] }
  | none => { s with procAlive := true, termAttached := true }

/-- A `stdin` message: forwarded to the pty only if `ws.term` is set. -/
def sessMsgStdin (d : String) (s : SessionState) : SessionState :=
  if s.termAttached then { s with ptyInput := s.ptyInput ++ [d] } else s

/-- `ws.term.on('data')`: emit the chunk, filtered through
`stripAnsiSequences`, as a `stdout` message. -/
def sessTermData (d : String) (s : SessionState) : SessionState :=
  { s with outMsgs := s.outMsgs ++ [.stdoutMsg (stripAnsiSequences d)] }

/-- `ws.term.on('exit')`: the process ended; emit the `exit` message. -/
def sessTermExit (s : SessionState) : SessionState :=
  { s with procAlive := false, outMsgs := s.outMsgs ++ [.exitMsg] }

/-- `ws.on('close')` (lines 91–102): remove the workspace directory.  The
handler performs no other action — in particular it never signals
`ws.term`. -/
def sessClose (s : SessionState) : SessionState :=
  { s with dirExists := false }

/-! ## Concrete inputs used by witnesses and counterexamples -/

/-- The docker callback for the infinite-loop program under the inner
deadline: GNU `timeout` exits 124, the shell script echoes the markers, and
the container itself exits 0 (so `exec` reports no error). -/
def infLoopCb : ExecCbResult :=
  ⟨none, "EXIT_CODE:124\n---STDOUT---\nInfinite loop...\n---STDERR---\n", ""⟩

/-- The docker callback after the outer supervisory timeout (node's 15 s
`exec` timeout) killed the hung docker client: `killed` is set, `code` is
`null`, and no marker output was ever produced. -/
def outerKillCb : ExecCbResult := ⟨some ⟨true, none⟩, "", ""⟩

/-- The docker callback for a program that printed
`a\n---STDERR---\nEVIL` — with a literal backslash before each `n` — to
stdout and nothing to stderr.  The container blob therefore contains the
marker text inside the program's own stdout region. -/
def markerEvilCb : ExecCbResult :=
  ⟨none, "EXIT_CODE:0\n---STDOUT---\na\\n---STDERR---\\nEVIL\n---STDERR---\n", ""⟩

/-- The V2 `execFile` callback after its 3 s node-side timeout killed the
docker client mid-run. -/
def v2TimeoutCb : ExecCbResult := ⟨some ⟨true, none⟩, "partial", ""⟩

/-- The V2 `execFile` callback for a program that segfaulted: docker exits
139, `killed` is false. -/
def segfaultCb : ExecCbResult := ⟨some ⟨false, some 139⟩, "", ""⟩

/-- The V1 docker callback for the same segfault under the inner `timeout`
wrapper: the shell reports `EXIT_CODE:139`. -/
def segfaultBlobCb : ExecCbResult :=
  ⟨none, "EXIT_CODE:139\n---STDOUT---\n---STDERR---\n", ""⟩

/-- A representative workspace directory path. -/
def wsSample : String := "/tmp/c-runner-1"

/-- A benign C source text. -/
def helloSource : String := "int main() { return 0; }"

/-- An environment where everything succeeds and the run segfaults. -/
def envSegfault : RunEnv :=
  { mkdirOk := true, writeOk := true, mkdirErr := "", writeErr := ""
    compileCb := ⟨none, "", ""⟩, execCb := segfaultCb }

/-- An environment whose compile step fails with a diagnostic. -/
def envCompileFail : RunEnv :=
  { mkdirOk := true, writeOk := true, mkdirErr := "", writeErr := ""
    compileCb :=
      ⟨some ⟨false, some 1⟩, "", "main.c:1:1: error: expected declaration\n"⟩
    execCb := ⟨none, "", ""⟩ }

/-- A source text one character over the 1 MB ceiling. -/
def oversizedCode : String := ⟨List.replicate (1024 * 1024 + 1) 'a'⟩

/-- The mutual-exclusivity shape of a batch response: exactly one of
"`compileError` non-empty (with `stdout` and `stderr` both empty)" and
"`compileError` empty (with the run's `stdout`/`stderr`/`exitCode`/
`timedOut` fields carrying the outcome)" holds. -/
def respMutualExclusive (r : Response) : Prop :=
  Xor' (r.compileError ≠ "" ∧ r.stdout = "" ∧ r.stderr = "")
    (r.compileError = "")

/-! ## Helper lemmas -/

/-- Every response either has an empty `compileError` or hard-coded empty
`stdout`/`stderr`; and the workspace directory is gone after every request,
with cleanup invoked whenever it was created. -/
theorem handleRun_shape (f : ExecCbResult → CompileResult)
    (g : ExecCbResult → ExecOutcome) (code : JsVal) (env : RunEnv) :
    ((handleRun f g code env).1.compileError = "" ∨
      ((handleRun f g code env).1.stdout = "" ∧
        (handleRun f g code env).1.stderr = "")) ∧
    (handleRun f g code env).2.dirExistsAfter = false ∧
    (!(handleRun f g code env).2.workspaceCreated ||
      (handleRun f g code env).2.cleanupCalled) = true := by
  cases code <;>
    simp only [handleRun, runBody, invalidCodeResponse, tooLargeResponse,
      internalErrorResponse] <;>
    (repeat' split) <;> simp_all

/-- A response with the either/or shape satisfies the exactly-one
property. -/
theorem mutualExclusive_of (r : Response)
    (h : r.compileError = "" ∨ (r.stdout = "" ∧ r.stderr = "")) :
    respMutualExclusive r := by
  by_cases hce : r.compileError = ""
  · exact Or.inr ⟨hce, fun h' => h'.1 hce⟩
  · rcases h with h | h
    · exact absurd h hce
    · exact Or.inl ⟨⟨hce, h.1, h.2⟩, fun h' => hce h'⟩

/-- `replAll belM` never leaves a BEL character behind. -/
theorem replAll_belM_not_mem_aux :
    ∀ (n : Nat) (l : List Char), l.length ≤ n → '\x07' ∉ replAll belM l := by
  intro n
  induction n with
  | zero =>
    intro l hl
    obtain rfl : l = [] := List.length_eq_zero.mp (Nat.le_zero.mp hl)
    simp [replAll]
  | succ n ih =>
    intro l hl
    match l with
    | [] => simp [replAll]
    | c :: cs =>
      have hn : cs.length ≤ n := by
        simp only [List.length_cons] at hl
        omega
      rw [replAll]
      by_cases hc : c = '\x07'
      · subst hc
        have hb : belM ('\x07' :: cs) = some 1 := by simp [belM]
        rw [hb]
        show '\x07' ∉ replAll belM (cs.drop 0)
        simpa using ih cs hn
      · have hb : belM (c :: cs) = none := by simp [belM, hc]
        rw [hb]
        show '\x07' ∉ c :: replAll belM cs
        intro hmem
        rcases List.mem_cons.mp hmem with h | h
        · exact hc h.symm
        · exact ih cs hn h

/-- No output of `replAll belM` contains a BEL. -/
theorem replAll_belM_not_mem (l : List Char) : '\x07' ∉ replAll belM l :=
  replAll_belM_not_mem_aux l.length l le_rfl

/-! ## Claims -/

/-- C1: every batch response satisfies the mutual-exclusivity property —
exactly one of "`compileError` non-empty with `stdout` and `stderr` both
empty" or "`compileError` empty with the run fields carrying the outcome"
holds, in both batch-server variants, for every request and every behaviour
of the filesystem and docker. -/
theorem c1_response_mutual_exclusivity :
    ∀ (code : JsVal) (env₁ env₂ : RunEnv),
      respMutualExclusive (handleRunV1 code env₁).1 ∧
      respMutualExclusive (handleRunV2 code env₂).1 := by
  intro code env₁ env₂
  exact ⟨mutualExclusive_of _ (handleRun_shape _ _ code env₁).1,
    mutualExclusive_of _ (handleRun_shape _ _ code env₂).1⟩

/-- C2: a request whose source exceeds the 1 MB ceiling is rejected with an
HTTP 400 error before any workspace is allocated: no workspace directory is
created, none exists afterwards, in both batch-server variants. -/
theorem c2_oversized_rejected_before_workspace :
    ∀ (s : String) (env₁ env₂ : RunEnv), s.length > 1024 * 1024 →
      (handleRunV1 (.str s) env₁).1.status = 400 ∧
      (handleRunV1 (.str s) env₁).2.workspaceCreated = false ∧
      (handleRunV1 (.str s) env₁).2.dirExistsAfter = false ∧
      (handleRunV2 (.str s) env₂).1.status = 400 ∧
      (handleRunV2 (.str s) env₂).2.workspaceCreated = false ∧
      (handleRunV2 (.str s) env₂).2.dirExistsAfter = false := by
  intro s env₁ env₂ h
  have hne : ¬ s = "" := by
    intro h0
    subst h0
    exact absurd h (by decide)
  simp [handleRunV1, handleRunV2, handleRun, if_neg hne, if_pos h,
    tooLargeResponse]

/-- C2 witness: a concrete source one character over the ceiling is
rejected with no workspace created. -/
theorem c2_oversized_witness :
    oversizedCode.length > 1024 * 1024 ∧
    (handleRunV1 (.str oversizedCode) envSegfault).1.status = 400 ∧
    (handleRunV1 (.str oversizedCode) envSegfault).2.workspaceCreated
      = false := by
  have hlen : oversizedCode.length > 1024 * 1024 := by
    have h : oversizedCode.data.length = 1024 * 1024 + 1 := by
      show (List.replicate (1024 * 1024 + 1) 'a').length = 1024 * 1024 + 1
      exact List.length_replicate _ _
    have h2 := String.length_data oversizedCode
    omega
  refine ⟨hlen, ?_, ?_⟩
  · exact (c2_oversized_rejected_before_workspace oversizedCode
      envSegfault envSegfault hlen).1
  · exact (c2_oversized_rejected_before_workspace oversizedCode
      envSegfault envSegfault hlen).2.1

/-- C3: when compilation fails (the compile docker callback reports an
error, as `exec` does on any non-zero compiler exit), the pipeline
short-circuits — `executeCode` is never invoked — and the response carries
the captured compiler diagnostics as `compileError` (verbatim in V1,
trimmed in V2), with empty `stdout`/`stderr` and `timedOut = false`. -/
theorem c3_compile_failure_short_circuits :
    ∀ (s : String) (env₁ env₂ : RunEnv) (e₁ e₂ : JsExecError),
      s ≠ "" → s.length ≤ 1024 * 1024 →
      env₁.mkdirOk = true → env₁.writeOk = true →
      env₁.compileCb.error = some e₁ →
      env₂.mkdirOk = true → env₂.writeOk = true →
      env₂.compileCb.error = some e₂ →
      (handleRunV1 (.str s) env₁).2.executeInvoked = false ∧
      (handleRunV1 (.str s) env₁).1.compileError = env₁.compileCb.stderr ∧
      (handleRunV1 (.str s) env₁).1.stdout = "" ∧
      (handleRunV1 (.str s) env₁).1.stderr = "" ∧
      (handleRunV1 (.str s) env₁).1.timedOut = false ∧
      (handleRunV2 (.str s) env₂).2.executeInvoked = false ∧
      (handleRunV2 (.str s) env₂).1.compileError
        = jsTrim env₂.compileCb.stderr := by
  intro s env₁ env₂ e₁ e₂ hne hlen hmk₁ hwr₁ hce₁ hmk₂ hwr₂ hce₂
  have hsize : ¬ s.length > 1024 * 1024 := Nat.not_lt.mpr hlen
  simp [handleRunV1, handleRunV2, handleRun, if_neg hne, if_neg hsize,
    runBody, hmk₁, hwr₁, hmk₂, hwr₂, compileCodeV1, compileCodeV2,
    hce₁, hce₂]

/-- C3 witness: a concrete failing compile short-circuits and reports its
diagnostic. -/
theorem c3_compile_failure_witness :
    envCompileFail.compileCb.error = some ⟨false, some 1⟩ ∧
    (handleRunV1 (.str helloSource) envCompileFail).2.executeInvoked
      = false ∧
    (handleRunV1 (.str helloSource) envCompileFail).1.compileError
      = "main.c:1:1: error: expected declaration\n" := by
  have h := c3_compile_failure_short_circuits helloSource envCompileFail
    envCompileFail ⟨false, some 1⟩ ⟨false, some 1⟩
    (by decide) (by decide) rfl rfl rfl rfl rfl rfl
  exact ⟨rfl, h.1, h.2.1⟩

/-- C4 counterexample: an execution killed by the OUTER deadline mechanism
(node's 15 s `exec` timeout killing the hung docker client: `error.killed`
set, `error.code` null, no marker output) is reported with
`timedOut = false` and exit code 1 — not `timedOut = true` with the 124
sentinel, refuting the claim for the outer mechanism. -/
theorem c4_counterexample_outer_kill :
    outerKillCb.error = some ⟨true, none⟩ ∧
    (executeCodeV1 outerKillCb).timedOut = false ∧
    (executeCodeV1 outerKillCb).exitCode = some 1 := by
  decide

/-- C4 (amended): only an inner-deadline kill — reported by the in-container
GNU `timeout` as exit code 124 in the marker blob — yields `timedOut = true`
with the sentinel exit code 124 (so the infinite-loop program does); the V2
`execFile` variant's deadline kill sets `timedOut = true` but exit code 0,
not a sentinel. -/
theorem c4_deadline_kill_behaviour :
    (∀ cb : ExecCbResult, execExitCodeV1 cb = some 124 →
      (executeCodeV1 cb).timedOut = true ∧
      (executeCodeV1 cb).exitCode = some 124) ∧
    (executeCodeV2 v2TimeoutCb).timedOut = true ∧
    (executeCodeV2 v2TimeoutCb).exitCode = some 0 := by
  refine ⟨fun cb h => ?_, by decide, by decide⟩
  simp [executeCodeV1, h]

/-- C4 witness: the infinite-loop blob carries the 124 sentinel, and the
amended theorem applies to it. -/
theorem c4_deadline_kill_witness :
    execExitCodeV1 infLoopCb = some 124 ∧
    (executeCodeV1 infLoopCb).timedOut = true ∧
    (executeCodeV1 infLoopCb).exitCode = some 124 := by
  have h : execExitCodeV1 infLoopCb = some 124 := by decide
  exact ⟨h, (c4_deadline_kill_behaviour.1 infLoopCb h).1,
    (c4_deadline_kill_behaviour.1 infLoopCb h).2⟩

/-- C5: a crash that does not hit the deadline passes through unmodified:
in V2, a non-killed docker error with non-zero code `c` yields a response
with `exitCode = c`, `timedOut = false` and empty `compileError`; in V1,
any parsed exit code other than 124 is passed through with
`timedOut = false`. -/
theorem c5_crash_passthrough :
    (∀ (s : String) (env : RunEnv) (e : JsExecError) (c : Int),
      s ≠ "" → s.length ≤ 1024 * 1024 →
      env.mkdirOk = true → env.writeOk = true →
      env.compileCb.error = none →
      env.execCb.error = some e → e.killed = false → e.code = some c →
      c ≠ 0 →
      (handleRunV2 (.str s) env).1.exitCode = some c ∧
      (handleRunV2 (.str s) env).1.timedOut = false ∧
      (handleRunV2 (.str s) env).1.compileError = "") ∧
    (∀ (cb : ExecCbResult) (c : Int),
      execExitCodeV1 cb = some c → c ≠ 124 →
      (executeCodeV1 cb).exitCode = some c ∧
      (executeCodeV1 cb).timedOut = false) := by
  constructor
  · intro s env e c hne hlen hmk hwr hcb hex hkill hcode hc0
    have hsize : ¬ s.length > 1024 * 1024 := Nat.not_lt.mpr hlen
    simp [handleRunV2, handleRun, if_neg hne, if_neg hsize, runBody,
      hmk, hwr, compileCodeV2, hcb, executeCodeV2, hex, hkill, hcode,
      jsOrNum, hc0]
  · intro cb c h hc
    have hb : ((some c : Option Int) == some 124) = false := by
      simp [hc]
    simp [executeCodeV1, h, hb]

/-- C5 witness: a segfaulting run (docker exit 139) in both variants. -/
theorem c5_crash_witness :
    ((handleRunV2 (.str helloSource) envSegfault).1.exitCode = some 139 ∧
     (handleRunV2 (.str helloSource) envSegfault).1.timedOut = false ∧
     (handleRunV2 (.str helloSource) envSegfault).1.compileError = "") ∧
    ((executeCodeV1 segfaultBlobCb).exitCode = some 139 ∧
     (executeCodeV1 segfaultBlobCb).timedOut = false) := by
  have h124 : execExitCodeV1 segfaultBlobCb = some 139 := by decide
  exact ⟨c5_crash_passthrough.1 helloSource envSegfault ⟨false, some 139⟩
      139 (by decide) (by decide) rfl rfl rfl rfl rfl rfl (by decide),
    c5_crash_passthrough.2 segfaultBlobCb 139 h124 (by decide)⟩

/-- C6: on every exit path of both batch handlers — validation failure,
workspace-allocation failure, compile failure, run (success, crash or
timeout) — the workspace directory is gone once the response is produced,
and cleanup is invoked whenever a workspace was created. -/
theorem c6_workspace_always_removed :
    ∀ (code : JsVal) (env₁ env₂ : RunEnv),
      (handleRunV1 code env₁).2.dirExistsAfter = false ∧
      (!(handleRunV1 code env₁).2.workspaceCreated ||
        (handleRunV1 code env₁).2.cleanupCalled) = true ∧
      (handleRunV2 code env₂).2.dirExistsAfter = false ∧
      (!(handleRunV2 code env₂).2.workspaceCreated ||
        (handleRunV2 code env₂).2.cleanupCalled) = true := by
  intro code env₁ env₂
  exact ⟨(handleRun_shape _ _ code env₁).2.1,
    (handleRun_shape _ _ code env₁).2.2,
    (handleRun_shape _ _ code env₂).2.1,
    (handleRun_shape _ _ code env₂).2.2⟩

set_option maxRecDepth 4000 in
/-- C7 counterexample: the resource-cap flags of the V1 build container and
the V1 run container differ (the build container carries no
`--pids-limit`), refuting "identical caps for build and run". -/
theorem c7_counterexample_caps_differ :
    resourceCapsOfCmdStr (compileCmdV1 wsSample) ≠
    resourceCapsOfCmdStr (executeCmdV1 wsSample) := by
  decide

set_option maxRecDepth 4000 in
/-- C7 (amended): in both batch variants the memory ceiling, CPU share,
network isolation and unprivileged user are identical for build and run,
but the process-count ceiling `--pids-limit=64` is applied only to the run
container; the interactive server applies no resource caps to either
container. -/
theorem c7_resource_caps_by_stage :
    resourceCapsOfCmdStr (compileCmdV1 wsSample)
      = ["--memory=256m", "--cpus=0.5", "--network=none",
         "--user=1000:1000"] ∧
    resourceCapsOfCmdStr (executeCmdV1 wsSample)
      = ["--memory=256m", "--cpus=0.5", "--pids-limit=64",
         "--network=none", "--user=1000:1000"] ∧
    dockerResourceCaps (compileCmdV2 wsSample)
      = ["--memory=256m", "--cpus=0.5", "--network=none",
         "--user=1000:1000"] ∧
    dockerResourceCaps (executeCmdV2 wsSample)
      = ["--memory=256m", "--cpus=0.5", "--pids-limit=64",
         "--network=none", "--user=1000:1000"] ∧
    dockerResourceCaps (compileCmdInteractive wsSample) = [] ∧
    dockerResourceCaps (ptyRunCmdInteractive wsSample) = [] := by
  decide

/-- C8 counterexample: V1 recovers the streams by splitting the single
combined blob on marker text.  For a program that wrote
`a\n---STDERR---\nEVIL` (with literal backslash-`n`s) to stdout and nothing
to stderr, the parser reports `"EVIL\n---STDERR---\n"` — text the program
printed to stdout — as stderr, and an empty stdout: a program printing the
marker text corrupts the reported streams. -/
theorem c8_counterexample_marker_corruption :
    markerEvilCb.stderr = "" ∧
    (executeCodeV1 markerEvilCb).stderr = "EVIL\n---STDERR---\n" ∧
    (executeCodeV1 markerEvilCb).stdout = "" := by
  decide

/-- C8 (amended): the V2 `execFile` variant reports the two independently
captured callback streams (trimmed) with no marker parsing; the V1 variant
recovers both from one combined blob split on marker text and is corrupted
by programs printing the markers. -/
theorem c8_streams_separate_in_v2 :
    ∀ cb : ExecCbResult,
      (executeCodeV2 cb).stdout = jsTrim cb.stdout ∧
      (executeCodeV2 cb).stderr = jsTrim cb.stderr :=
  fun _ => ⟨rfl, rfl⟩

/-- C9 counterexample: after a successful compile spawns the pty process, a
client disconnect (`ws.on('close')`) removes the workspace but leaves the
spawned process alive — the handler never signals `ws.term` — refuting "no
spawned process survives past the owning session's end". -/
theorem c9_counterexample_close_keeps_process :
    (sessMsgCode none sessConnect).procAlive = true ∧
    (sessClose (sessMsgCode none sessConnect)).procAlive = true ∧
    (sessClose (sessMsgCode none sessConnect)).dirExists = false := by
  decide

/-- C9 (amended): on client disconnect the session removes its workspace
directory but does not terminate a live spawned process; the process's
liveness is unchanged by the close handler. -/
theorem c9_close_removes_workspace_only :
    ∀ s : SessionState,
      (sessClose s).dirExists = false ∧
      (sessClose s).procAlive = s.procAlive :=
  fun _ => ⟨rfl, rfl⟩

/-- C10: `stripAnsiSequences` leaves no BEL (`\u0007`) character in its
output on any string input (its final global replace removes every BEL),
and returns any non-string input unchanged. -/
theorem c10_strip_ansi_no_bel :
    (∀ s : String, '\x07' ∉ (stripAnsiSequences s).data) ∧
    (∀ v : JsVal, JsVal.isString v = false → stripAnsiSequencesJs v = v) := by
  constructor
  · intro s
    exact replAll_belM_not_mem
      (jsReplace otherM (jsReplace oscM (jsReplace csiM s))).data
  · intro v hv
    cases v with
    | str s => simp [JsVal.isString] at hv
    | num n => rfl
    | boolean b => rfl
    | nullV => rfl
    | undefinedV => rfl

/-- C10 witness: a concrete string with BELs inside and outside escape
sequences, and a concrete non-string value. -/
theorem c10_strip_ansi_witness :
    '\x07' ∉ (stripAnsiSequences "a\x07\x1b[31m\x07b").data ∧
    JsVal.isString (JsVal.num 7) = false ∧
    stripAnsiSequencesJs (JsVal.num 7) = JsVal.num 7 :=
  ⟨c10_strip_ansi_no_bel.1 "a\x07\x1b[31m\x07b", rfl,
    c10_strip_ansi_no_bel.2 (JsVal.num 7) rfl⟩

end SandboxedC
